import Mathlib

/-!
Shallow embedding of `src/MicroPie.py` (class `Server`): string helpers,
`urllib.parse.parse_qs`, the two cookie parsers, the session store,
`cleanup_sessions`, the WSGI argument binder and `wsgi_app`, and the
built-in server's `_handle_request` as a transport-event trace.

Modelling conventions:
  * Python `dict` values keyed by strings are association lists
    (`listFind?` / `listSet`): lookup finds the first entry, assignment
    updates in place or appends, matching insertion-ordered dicts.
  * `time.time()` instants are natural numbers; only their ordering and
    addition with the timeout matter to the code.
  * `uuid.uuid4()` is an input (`newSid`): the fresh identifier chosen by
    the environment.
  * Byte strings are modelled as `String`; percent-decoding decodes each
    `%XX` escape to the single character with that code (exact for the
    ASCII data all claims use; CPython reassembles multi-byte UTF-8
    sequences, which no claim exercises).
  * Code that raises is `Option`/`Except` valued.
-/

namespace MicroPie

/-- Entries of a Python string-keyed dict, in insertion order. -/
abbrev Assoc := List (String × String)

/-- First-match lookup in an insertion-ordered dict. -/
def listFind? {β : Type} (d : List (String × β)) (k : String) : Option β :=
  match d with
  | [] => none
  | (k', v) :: rest => if k' = k then some v else listFind? rest k

/-- Python dict assignment `d[k] = v`: update in place, else append. -/
def listSet {β : Type} (d : List (String × β)) (k : String) (v : β) :
    List (String × β) :=
  match d with
  | [] => [(k, v)]
  | (k', v') :: rest =>
    if k' = k then (k', v) :: rest else (k', v') :: listSet rest k v

/-- Keys of a dict, in order. -/
def listKeys {β : Type} (d : List (String × β)) : List String :=
  d.map Prod.fst

/-- Python `s.split(sep)` for a one-character separator, on char lists.
`acc` holds the current piece reversed. -/
def splitOnCharAux (sep : Char) : List Char → List Char → List (List Char)
  | [], acc => [acc.reverse]
  | c :: cs, acc =>
    if c = sep then acc.reverse :: splitOnCharAux sep cs []
    else splitOnCharAux sep cs (c :: acc)

/-- Python `s.split(sep)` for a one-character separator. -/
def pySplit (s : String) (sep : Char) : List String :=
  (splitOnCharAux sep s.toList []).map String.mk

/-- Python `c in s` for a single character. -/
def strContains (s : String) (c : Char) : Bool :=
  s.toList.contains c

/-- ASCII `str.lower`, character-wise. -/
def lowerChar (c : Char) : Char :=
  if 'A' ≤ c ∧ c ≤ 'Z' then Char.ofNat (c.toNat + 32) else c

/-- ASCII `str.lower`. -/
def strLower (s : String) : String :=
  String.mk (s.toList.map lowerChar)

/-- Strip characters satisfying `p` from both ends (Python `str.strip`). -/
def stripCharList (p : Char → Bool) (cs : List Char) : List Char :=
  ((cs.dropWhile p).reverse.dropWhile p).reverse

/-- Python `s.strip()` (ASCII whitespace). -/
def pyStrip (s : String) : String :=
  String.mk (stripCharList Char.isWhitespace s.toList)

/-- Python `s.strip("/")`. -/
def stripSlashes (s : String) : String :=
  String.mk (stripCharList (fun c => c = '/') s.toList)

/-- Split at the first occurrence of `sep`; `none` when absent
(Python `s.split(sep, 1)` yields one or two pieces). -/
def splitFirstAux (sep : Char) : List Char → Option (List Char × List Char)
  | [] => none
  | c :: cs =>
    if c = sep then some ([], cs)
    else
      match splitFirstAux sep cs with
      | some (l, r) => some (c :: l, r)
      | none => none

/-- String version of `splitFirstAux`. -/
def splitFirst (s : String) (sep : Char) : Option (String × String) :=
  (splitFirstAux sep s.toList).map (fun p => (String.mk p.1, String.mk p.2))

/-- Value of a hex digit, as in CPython's `_hexdig` table. -/
def hexVal (c : Char) : Option Nat :=
  if '0' ≤ c ∧ c ≤ '9' then some (c.toNat - 48)
  else if 'a' ≤ c ∧ c ≤ 'f' then some (c.toNat - 87)
  else if 'A' ≤ c ∧ c ≤ 'F' then some (c.toNat - 55)
  else none

/-- `urllib.parse.unquote`: decode `%XX` escapes, leaving bad escapes
literal (each decoded byte becomes the character of that code). -/
def percentDecode : List Char → List Char
  | [] => []
  | '%' :: a :: b :: rest =>
    match hexVal a, hexVal b with
    | some ha, some hb => Char.ofNat (16 * ha + hb) :: percentDecode rest
    | _, _ => '%' :: percentDecode (a :: b :: rest)
  | '%' :: rest => '%' :: percentDecode rest
  | c :: rest => c :: percentDecode rest

/-- `urllib.parse.unquote_plus`: `+` becomes space, then percent-decode. -/
def unquotePlus (s : String) : String :=
  String.mk (percentDecode (s.toList.map (fun c => if c = '+' then ' ' else c)))

/-- `parse_qs` result: field name to ordered list of values. -/
abbrev MultiDict := List (String × List String)

/-- `parsed_result[name].append(value)` on a dict of lists. -/
def mdAppend (md : MultiDict) (k v : String) : MultiDict :=
  match md with
  | [] => [(k, [v])]
  | (k', vs) :: rest =>
    if k' = k then (k', vs ++ [v]) :: rest else (k', vs) :: mdAppend rest k v

/-- Key-presence lookup on a `MultiDict`. -/
def mdFind? (md : MultiDict) (k : String) : Option (List String) :=
  listFind? md k

/-- One `name=value` chunk of `urllib.parse.parse_qsl`
(`keep_blank_values=False`, `separator="&"`): empty chunks, chunks
without `=` and chunks with an empty value are dropped. -/
def parseQsStep (acc : MultiDict) (chunk : String) : MultiDict :=
  if chunk = "" then acc
  else
    match splitFirst chunk '=' with
    | none => acc
    | some (n, v) =>
      if v = "" then acc else mdAppend acc (unquotePlus n) (unquotePlus v)

/-- `urllib.parse.parse_qs` with its default arguments. -/
def parse_qs (qs : String) : MultiDict :=
  (pySplit qs '&').foldl parseQsStep []

/-- One entry of `MockRequestHandler._parse_cookies`
(`MicroPie.py:391-394`): entries without `=` are skipped; kept entries
are stripped and split on the first `=`. -/
def cookieStep (d : Assoc) (item : String) : Assoc :=
  if strContains item '=' then
    match splitFirst (pyStrip item) '=' with
    | some (k, v) => listSet d k v
    | none => d
  else d

/-- Fold of `cookieStep` over the `;`-split entries. -/
def parseCookieEntries (items : List String) : Assoc :=
  items.foldl cookieStep []

/-- `MockRequestHandler._parse_cookies` (`MicroPie.py:387-395`). -/
def parseCookiesMock (header : String) : Assoc :=
  parseCookieEntries (pySplit header ';')

/-- One entry of the dict comprehension in `get_session`
(`MicroPie.py:255-258`): `item.split("=")[0].strip()` maps to
`item.split("=")[1].strip()`; an entry without `=` raises `IndexError`,
modelled as `none`. -/
def getSessionCookieItem (item : String) : Option (String × String) :=
  match pySplit item '=' with
  | [] => none
  | [_] => none
  | k :: v :: _ => some (pyStrip k, pyStrip v)

/-- The cookie-parsing dict comprehension in `get_session`
(`MicroPie.py:254-258`); `none` models the comprehension raising. -/
def parseCookiesGetSession (header : String) : Option Assoc :=
  (pySplit header ';').foldlM
    (fun d item => (getSessionCookieItem item).map (fun p => listSet d p.1 p.2))
    []

example : parse_qs "a=1&b=2&a=3" = [("a", ["1", "3"]), ("b", ["2"])] := by decide
example : parseCookiesMock "a; b=2" = [("b", "2")] := by decide
example : parseCookiesGetSession "a; b=2" = none := by decide
example : parseCookiesGetSession "a=1; b=2" = some [("a", "1"), ("b", "2")] := by
  decide

/-- A session dict: the `"last_access"` entry (absent when the dict was
created without it, hence `Option`) plus any application attributes. -/
structure SessData where
  lastAccess : Option Nat
  attrs : Assoc
deriving DecidableEq, Repr

/-- `self.sessions`: session id to session dict. -/
abbrev Store := List (String × SessData)

/-- `Server.SESSION_TIMEOUT = 8 * 3600` (`MicroPie.py:56`). -/
def SESSION_TIMEOUT : Nat := 8 * 3600

/-- `cleanup_sessions` (`MicroPie.py:284-293`): keep the sessions with
`data.get("last_access", now) + SESSION_TIMEOUT > now`. -/
def cleanup_sessions (store : Store) (now : Nat) : Store :=
  store.filter (fun p => p.2.lastAccess.getD now + SESSION_TIMEOUT > now)

/-- The single-quote character, for building Python message strings. -/
def sq : String := String.mk [Char.ofNat 39]

/-- One declared handler parameter: its name and, when the declaration
has one, its default value (`inspect` exposes both). -/
structure Param where
  name : String
  default : Option String
deriving DecidableEq, Repr

/-- Handler return bodies: `str`, `bytes`, or a non-string iterable of
chunks (generator/list), the three shapes `wsgi_app` distinguishes. -/
inductive BodyV
  | str (s : String)
  | bytes (b : String)
  | iter (chunks : List String)
deriving DecidableEq, Repr

/-- Handler return shapes: a bare body, `(status, body)`,
`(status, body, extra_headers)`, or a tuple of any other arity. -/
inductive RetVal
  | plain (b : BodyV)
  | pair (status : Nat) (b : BodyV)
  | triple (status : Nat) (b : BodyV) (headers : List (String × String))
  | badTuple
deriving DecidableEq, Repr

/-- Invoking a handler either returns a value or raises. -/
inductive HandlerResult
  | ok (r : RetVal)
  | raise
deriving DecidableEq, Repr

/-- An application handler: its declared parameters (in order) and its
behaviour on a bound argument list. -/
structure Handler where
  params : List Param
  run : List String → HandlerResult

/-- The WSGI argument-binding loop (`MicroPie.py:448-463`): for each
parameter, pop the next positional path param if any remain, else the
first query value under the name, else the first body value, else the
declared default, else fail with the parameter's name.  Returns the
result together with what is left of `self.path_params` after the
destructive `pop(0)` calls.  (`parse_qs` never produces an empty value
list, so taking the head of a found list is total.) -/
def bindArgs (params : List Param) (pathParams : List String)
    (q b : MultiDict) : Except String (List String) × List String :=
  match params with
  | [] => (.ok [], pathParams)
  | p :: ps =>
    match pathParams with
    | v :: rest =>
      let r := bindArgs ps rest q b
      (r.1.map (fun args => v :: args), r.2)
    | [] =>
      match mdFind? q p.name with
      | some vs =>
        let r := bindArgs ps [] q b
        (r.1.map (fun args => vs.headD "" :: args), r.2)
      | none =>
        match mdFind? b p.name with
        | some vs =>
          let r := bindArgs ps [] q b
          (r.1.map (fun args => vs.headD "" :: args), r.2)
        | none =>
          match p.default with
          | some d =>
            let r := bindArgs ps [] q b
            (r.1.map (fun args => d :: args), r.2)
          | none => (.error p.name, [])

example :
    bindArgs [⟨"id", none⟩, ⟨"name", some "anon"⟩] ["42"] [] []
      = (.ok ["42", "anon"], []) := rfl
example :
    bindArgs [⟨"id", none⟩, ⟨"name", none⟩] ["42"] [] []
      = (.error "name", []) := rfl

/-- Decimal digit character. -/
def digitChar (n : Nat) : Char := Char.ofNat (48 + n)

/-- Fuel-driven decimal rendering (fuel bounds the digit count). -/
def natToStrAux : Nat → Nat → List Char
  | 0, _ => []
  | fuel + 1, n =>
    if n < 10 then [digitChar n]
    else natToStrAux fuel (n / 10) ++ [digitChar (n % 10)]

/-- Python `str(n)` for a natural number. -/
def natToStr (n : Nat) : String := String.mk (natToStrAux (n + 1) n)

/-- The WSGI `status_map.get(status_code, f"{status_code} OK")`
(`MicroPie.py:487-493`). -/
def statusStr (c : Nat) : String :=
  if c = 206 then "206 Partial Content"
  else if c = 302 then "302 Found"
  else if c = 404 then "404 Not Found"
  else if c = 500 then "500 Internal Server Error"
  else natToStr c ++ " OK"

/-- Route computation of `wsgi_app` (`MicroPie.py:361-373`): strip
slashes, default the empty path to `"index"`, split on `/`; the first
segment is the handler name, the rest are `self.path_params`. -/
def wsgiRoute (pathInfo : String) : String × List String :=
  let path0 := stripSlashes pathInfo
  let path := if path0 = "" then "index" else path0
  let parts := pySplit path '/'
  (parts.headD "", parts.tail)

/-- The WSGI request environment, as `wsgi_app` reads it.  `bodyOk`
models whether reading/decoding the request body raises (`MicroPie.py:
430-439`), and `bodyErr` the exception text used in the 400 body. -/
structure WsgiEnv where
  pathInfo : String
  method : String
  queryString : String
  httpCookie : Option String
  body : String
  bodyOk : Bool
  bodyErr : String
deriving DecidableEq, Repr

/-- `MockRequestHandler.cookies` (`MicroPie.py:384-395`). -/
def mockCookies (e : WsgiEnv) : Assoc :=
  match e.httpCookie with
  | some h => parseCookiesMock h
  | none => []

/-- The new-session test of `wsgi_app` (`MicroPie.py:409-414`): a new
session is created unless the cookie carries a non-empty `session_id`
naming an existing session. -/
def wsgiSessionIsNew (store : Store) (cookies : Assoc) : Bool :=
  match listFind? cookies "session_id" with
  | some sid => sid == "" || (listFind? store sid).isNone
  | none => true

/-- The `Set-Cookie` header `wsgi_app` sends for a new session
(`MicroPie.py:418-420`, with its trailing semicolon). -/
def wsgiSetCookieHeader (sid : String) : String × String :=
  ("Set-Cookie", "session_id=" ++ sid ++ "; Path=/; HttpOnly; SameSite=Strict;")

/-- Session resolution of `wsgi_app` (`MicroPie.py:408-421`): an
existing session gets its `last_access` refreshed and no header; a new
one is inserted under `newSid` and queues one `Set-Cookie` header.
Returns (store, queued headers, session id). -/
def wsgiResolveSession (store : Store) (cookies : Assoc) (newSid : String)
    (now : Nat) : Store × List (String × String) × String :=
  if wsgiSessionIsNew store cookies then
    (listSet store newSid ⟨some now, []⟩, [wsgiSetCookieHeader newSid], newSid)
  else
    match listFind? cookies "session_id" with
    | some sid =>
      match listFind? store sid with
      | some data =>
        (listSet store sid { data with lastAccess := some now }, [], sid)
      | none => (store, [], sid)  -- unreachable: not new means present
    | none => (store, [], "")    -- unreachable: not new means a cookie id


/-- POST body decoding of `wsgi_app` (`MicroPie.py:426-435`): the body
is query-string parsed whatever its content type; other methods leave
`self.body_params` empty.  No file-field output exists. -/
def wsgiBodyParams (method : String) (body : String) : MultiDict :=
  if method = "POST" then parse_qs body else []

/-- The `self` fields `wsgi_app` reads and reassigns per request. -/
structure ServerState where
  sessions : Store
  queryParams : MultiDict
  bodyParams : MultiDict
  pathParams : List String

/-- What one `wsgi_app` call passes to `start_response` plus the body
chunks of the returned iterable. -/
structure WsgiResponse where
  status : String
  headers : List (String × String)
  body : List String
deriving DecidableEq, Repr

/-- Appending the default content type (`MicroPie.py:499-501`):
only when no header already has the (case-insensitive) name. -/
def ensureContentType (hs : List (String × String)) : List (String × String) :=
  if hs.any (fun h => strLower h.1 == "content-type") then hs
  else hs ++ [("Content-Type", "text/html; charset=utf-8")]

/-- Unpack a (non-`badTuple`) handler return (`MicroPie.py:469-481`). -/
def unpackRet : RetVal → Nat × BodyV × List (String × String)
  | .plain b => (200, b, [])
  | .pair s b => (s, b, [])
  | .triple s b hs => (s, b, hs)
  | .badTuple => (500, .str "", [])

/-- Body chunks of the WSGI return iterable (`MicroPie.py:506-520`):
a string body is one encoded chunk, bytes one chunk, an iterable is
streamed chunk-wise. -/
def bodyChunks : BodyV → List String
  | .str s => [s]
  | .bytes b => [b]
  | .iter cs => cs

/-- The 400 body naming a missing parameter (`MicroPie.py:461`). -/
def msg400missing (pname : String) : String :=
  "400 Bad Request: Missing required parameter " ++ sq ++ pname ++ sq

/-- `wsgi_app` (`MicroPie.py:345-531`).  `handlers` models `getattr`
on the application instance; `newSid` the fresh `uuid4`; `now` the
clock.  Every exit carries the store as left by session resolution. -/
def wsgi_app (st : ServerState) (env : WsgiEnv)
    (handlers : String → Option Handler) (newSid : String) (now : Nat) :
    WsgiResponse × ServerState :=
  let queryParams := parse_qs env.queryString
  let route := wsgiRoute env.pathInfo
  let funcName := route.1
  let pathParams := route.2
  let cookies := mockCookies env
  let sres := wsgiResolveSession st.sessions cookies newSid now
  let sessions1 := sres.1
  let sessHeaders := sres.2.1
  if env.method == "POST" && !env.bodyOk then
    (⟨"400 Bad Request", [("Content-Type", "text/html")],
      ["400 Bad Request: " ++ env.bodyErr]⟩,
     ⟨sessions1, queryParams, [], pathParams⟩)
  else
    let bodyParams := wsgiBodyParams env.method env.body
    match handlers funcName with
    | none =>
      (⟨"404 Not Found", [("Content-Type", "text/html")], ["404 Not Found"]⟩,
       ⟨sessions1, queryParams, bodyParams, pathParams⟩)
    | some h =>
      let bres := bindArgs h.params pathParams queryParams bodyParams
      match bres.1 with
      | .error pname =>
        (⟨"400 Bad Request", [("Content-Type", "text/html")],
          [msg400missing pname]⟩,
         ⟨sessions1, queryParams, bodyParams, bres.2⟩)
      | .ok args =>
        match h.run args with
        | .raise =>
          (⟨"500 Internal Server Error", [("Content-Type", "text/html")],
            ["500 Internal Server Error:"]⟩,
           ⟨sessions1, queryParams, bodyParams, bres.2⟩)
        | .ok .badTuple =>
          (⟨"500 Internal Server Error", [("Content-Type", "text/html")],
            ["500 Internal Server Error: Invalid response tuple"]⟩,
           ⟨sessions1, queryParams, bodyParams, bres.2⟩)
        | .ok rv =>
          let u := unpackRet rv
          (⟨statusStr u.1, ensureContentType (sessHeaders ++ u.2.2),
            bodyChunks u.2.1⟩,
           ⟨sessions1, queryParams, bodyParams, bres.2⟩)

/-- The per-request source reset plus binding phase of `wsgi_app`
(`MicroPie.py:369-373`, `426-435`, `448-463`): `self.query_params`,
`self.path_params` and `self.body_params` are recomputed from the
request before `bindArgs` consumes `self.path_params`. -/
def dispatchBind (st : ServerState) (env : WsgiEnv) (params : List Param) :
    Except String (List String) × ServerState :=
  let queryParams := parse_qs env.queryString
  let pathParams := (wsgiRoute env.pathInfo).2
  let bodyParams := wsgiBodyParams env.method env.body
  let b := bindArgs params pathParams queryParams bodyParams
  (b.1, ⟨st.sessions, queryParams, bodyParams, b.2⟩)

/-- Transport events the built-in request handler writes, in order:
`send_response` (a status line), `send_header`, `end_headers`, a body
write, `send_error` (an error status line with its own body), or the
static-file branch. -/
inductive Event
  | sendResponse (code : Nat)
  | sendHeader (k v : String)
  | endHeaders
  | write (s : String)
  | sendError (code : Nat) (msg : String)
  | staticServe
deriving DecidableEq, Repr

/-- The `Set-Cookie` value of `get_session` (`MicroPie.py:266-268`,
without the WSGI version's trailing semicolon). -/
def builtinSetCookieValue (sid : String) : String :=
  "session_id=" ++ sid ++ "; Path=/; HttpOnly; SameSite=Strict"

/-- The new-session test of `get_session` (`MicroPie.py:262`):
`if not session_id or session_id not in self.sessions`. -/
def builtinSessionIsNew (store : Store) (sessionId? : Option String) : Bool :=
  match sessionId? with
  | some sid => sid == "" || (listFind? store sid).isNone
  | none => true

/-- `get_session` after cookie parsing (`MicroPie.py:261-282`):
`sessionId?` is `cookies.get("session_id")`.  A missing or unknown id
creates a session under `newSid` and writes the 200 status line, the
`Set-Cookie` header and the end-of-headers marker; then `last_access`
is refreshed (re-creating the entry if it vanished).  Returns
(store, session dict, events written, session id). -/
def getSessionCont (store : Store) (sessionId? : Option String)
    (newSid : String) (now : Nat) : Store × SessData × List Event × String :=
  let isNew := builtinSessionIsNew store sessionId?
  let sse :=
    if isNew then
      (newSid, listSet store newSid ⟨some now, []⟩,
       [Event.sendResponse 200,
        Event.sendHeader "Set-Cookie" (builtinSetCookieValue newSid),
        Event.endHeaders])
    else (sessionId?.getD "", store, ([] : List Event))
  let sid := sse.1
  let store1 := sse.2.1
  let events := sse.2.2
  match listFind? store1 sid with
  | some data =>
    let d := { data with lastAccess := some now }
    (listSet store1 sid d, d, events, sid)
  | none => (listSet store1 sid ⟨some now, []⟩, ⟨some now, []⟩, events, sid)

/-- `get_session` (`MicroPie.py:245-282`); `none` models the cookie
dict comprehension raising `IndexError` on an entry without `=`. -/
def get_session (store : Store) (cookieHeader : Option String)
    (newSid : String) (now : Nat) :
    Option (Store × SessData × List Event × String) :=
  match cookieHeader with
  | some c =>
    if c = "" then some (getSessionCont store none newSid now)
    else
      match parseCookiesGetSession c with
      | none => none
      | some cookies =>
        some (getSessionCont store (listFind? cookies "session_id") newSid now)
  | none => some (getSessionCont store none newSid now)

/-- `_get_func_args` (`MicroPie.py:179-201`): like the WSGI binder but
query fields apply only to GET and body fields only to POST; a missing
required parameter raises `ValueError`, carried here as the parameter
name.  Returns the result with what is left of `path_params`. -/
def getFuncArgs (params : List Param) (pathParams : List String)
    (q b : MultiDict) (method : String) :
    Except String (List String) × List String :=
  match params with
  | [] => (.ok [], pathParams)
  | p :: ps =>
    match pathParams with
    | v :: rest =>
      let r := getFuncArgs ps rest q b method
      (r.1.map (fun args => v :: args), r.2)
    | [] =>
      match (if method = "GET" then mdFind? q p.name else none) with
      | some vs =>
        let r := getFuncArgs ps [] q b method
        (r.1.map (fun args => vs.headD "" :: args), r.2)
      | none =>
        match (if method = "POST" then mdFind? b p.name else none) with
        | some vs =>
          let r := getFuncArgs ps [] q b method
          (r.1.map (fun args => vs.headD "" :: args), r.2)
        | none =>
          match p.default with
          | some d =>
            let r := getFuncArgs ps [] q b method
            (r.1.map (fun args => d :: args), r.2)
          | none => (.error p.name, [])

/-- `validate_request` (`MicroPie.py:317-343`): every key/value the
model represents is a string, so each `isinstance` check passes. -/
def validate_request (method : String) (q b : MultiDict) : Bool :=
  (!(method == "GET") || q.all (fun _ => true)) &&
    (!(method == "POST") || b.all (fun _ => true))

/-- `_send_response` (`MicroPie.py:203-233`): a string body is a 200
with `Content-Type: text/html`; a 2-tuple sends its status; anything
else is `send_error(500, "Invalid response format")`.  Writing a
non-bytes body of a 2-tuple raises after the headers went out, and the
handler's except block then calls `send_error(500, ...)`. -/
def sendResponseEvents : RetVal → List Event
  | .plain (.str s) =>
    [.sendResponse 200, .sendHeader "Content-Type" "text/html",
     .endHeaders, .write s]
  | .plain _ => [.sendError 500 "Invalid response format"]
  | .pair c (.str s) =>
    [.sendResponse c, .sendHeader "Content-Type" "text/html",
     .endHeaders, .write s]
  | .pair c (.bytes bs) =>
    [.sendResponse c, .sendHeader "Content-Type" "text/html",
     .endHeaders, .write bs]
  | .pair c (.iter _) =>
    [.sendResponse c, .sendHeader "Content-Type" "text/html",
     .endHeaders, .sendError 500 "Internal Server Error"]
  | .triple _ _ _ => [.sendError 500 "Invalid response format"]
  | .badTuple => [.sendError 500 "Invalid response format"]

/-- A request to the built-in server; `path` and `query` are the
components `urlparse` extracts from the request line. -/
structure BuiltinReq where
  path : String
  query : String
  method : String
  cookieHeader : Option String
  body : String
deriving DecidableEq, Repr

/-- Terminal outcome of `_handle_request`: finished normally, or an
exception escaped it (cookie parsing raised inside `get_session`). -/
inductive BOutcome
  | done
  | crashed
deriving DecidableEq, Repr

/-- The handler name `_handle_request` resolves (`MicroPie.py:141`):
the first path segment, or `"index"` when it is empty. -/
def builtinFuncName (path : String) : String :=
  let pathParts := pySplit (stripSlashes path) '/'
  if pathParts.headD "" = "" then "index" else pathParts.headD ""

/-- `_handle_request` (`MicroPie.py:131-177`) as the ordered list of
transport events it writes, plus the resulting store and outcome.
Route resolution (static check, handler lookup with its 404) precedes
`get_session`; a binding `ValueError` or a raising handler is caught
and answered with `send_error(500, ...)`. -/
def handle_request (store : Store) (handlers : String → Option Handler)
    (req : BuiltinReq) (newSid : String) (now : Nat) :
    List Event × Store × BOutcome :=
  let pathParts := pySplit (stripSlashes req.path) '/'
  if pathParts.headD "" = "static" then ([.staticServe], store, .done)
  else
    match handlers (builtinFuncName req.path) with
    | none => ([.sendError 404 "Not Found"], store, .done)
    | some h =>
      match get_session store req.cookieHeader newSid now with
      | none => ([], store, .crashed)
      | some sres =>
        let store1 := sres.1
        let sessEvents := sres.2.2.1
        let queryParams := parse_qs req.query
        let pathParams := pathParts.tail
        let bodyParams := if req.method = "POST" then parse_qs req.body else []
        if !(validate_request req.method queryParams bodyParams) then
          (sessEvents ++ [.sendError 400 "Invalid Request"], store1, .done)
        else
          match
            (getFuncArgs h.params pathParams queryParams bodyParams
              req.method).1 with
          | .error _ =>
            (sessEvents ++ [.sendError 500 "Internal Server Error"], store1,
             .done)
          | .ok args =>
            match h.run args with
            | .raise =>
              (sessEvents ++ [.sendError 500 "Internal Server Error"], store1,
               .done)
            | .ok rv => (sessEvents ++ sendResponseEvents rv, store1, .done)

/-! ## General lemmas about the embedded dictionary and string helpers -/

theorem all_true {α : Type} (l : List α) : l.all (fun _ => true) = true := by
  induction l with
  | nil => rfl
  | cons x xs ih => simp [List.all, ih]

theorem validate_request_true (method : String) (q b : MultiDict) :
    validate_request method q b = true := by
  simp [validate_request, all_true]

theorem listFind?_eq_none {β : Type} (l : List (String × β)) (k : String) :
    listFind? l k = none ↔ k ∉ listKeys l := by
  induction l with
  | nil => simp [listFind?, listKeys]
  | cons e rest ih =>
    obtain ⟨k', v⟩ := e
    rw [listFind?, listKeys, List.map_cons, List.mem_cons]
    by_cases hk : k' = k
    · simp [hk]
    · rw [if_neg hk, ih]
      constructor
      · intro h hc
        rcases hc with hc | hc
        · exact hk hc.symm
        · exact h hc
      · intro h hc
        exact h (Or.inr hc)

theorem listKeys_filter_subset {β : Type} (l : List (String × β))
    (p : String × β → Bool) : listKeys (l.filter p) ⊆ listKeys l :=
  (List.Sublist.map Prod.fst (List.filter_sublist l)).subset

theorem listFind?_filter_pos {β : Type} (l : List (String × β))
    (p : String × β → Bool) (k : String) (d : β)
    (hf : listFind? l k = some d) (hp : p (k, d) = true) :
    listFind? (l.filter p) k = some d := by
  induction l with
  | nil => simp [listFind?] at hf
  | cons e rest ih =>
    obtain ⟨k', v⟩ := e
    rw [listFind?] at hf
    by_cases hk : k' = k
    · rw [if_pos hk] at hf
      injection hf with hv
      subst hv; subst hk
      simp [List.filter_cons, hp, listFind?]
    · rw [if_neg hk] at hf
      have hrest := ih hf
      by_cases hpe : p (k', v) = true
      · simp [List.filter_cons, hpe, listFind?, hk, hrest]
      · rw [Bool.not_eq_true] at hpe
        simp [List.filter_cons, hpe, hrest]

theorem listFind?_filter_neg {β : Type} (l : List (String × β))
    (p : String × β → Bool) (k : String) (d : β)
    (hnd : (listKeys l).Nodup) (hf : listFind? l k = some d)
    (hp : p (k, d) = false) :
    listFind? (l.filter p) k = none := by
  induction l with
  | nil => simp [listFind?] at hf
  | cons e rest ih =>
    obtain ⟨k', v⟩ := e
    rw [listKeys, List.map_cons, List.nodup_cons] at hnd
    rw [listFind?] at hf
    by_cases hk : k' = k
    · rw [if_pos hk] at hf
      injection hf with hv
      subst hv; subst hk
      rw [List.filter_cons, hp]
      rw [listFind?_eq_none]
      intro hmem
      exact hnd.1 (listKeys_filter_subset rest p hmem)
    · rw [if_neg hk] at hf
      have hrest := ih hnd.2 hf
      by_cases hpe : p (k', v) = true
      · simp [List.filter_cons, hpe, listFind?, hk, hrest]
      · rw [Bool.not_eq_true] at hpe
        simp [List.filter_cons, hpe, hrest]

theorem mem_listKeys_listSet {β : Type} (d : List (String × β))
    (k' : String) (v : β) (k : String) (h : k ∈ listKeys d) :
    k ∈ listKeys (listSet d k' v) := by
  induction d with
  | nil => simp [listKeys] at h
  | cons e rest ih =>
    obtain ⟨k0, v0⟩ := e
    rw [listKeys, List.map_cons, List.mem_cons] at h
    by_cases hk : k0 = k'
    · rw [listSet, if_pos hk, listKeys, List.map_cons, List.mem_cons]
      exact h
    · rw [listSet, if_neg hk, listKeys, List.map_cons, List.mem_cons]
      rcases h with h | h
      · exact Or.inl h
      · exact Or.inr (ih h)

theorem self_mem_listKeys_listSet {β : Type} (d : List (String × β))
    (k : String) (v : β) : k ∈ listKeys (listSet d k v) := by
  induction d with
  | nil => simp [listSet, listKeys]
  | cons e rest ih =>
    obtain ⟨k0, v0⟩ := e
    by_cases hk : k0 = k <;> simp [listSet, hk, listKeys] at ih ⊢
    · exact Or.inr ih

theorem splitOnCharAux_not_mem (sep : Char) (cs acc : List Char)
    (h : sep ∉ cs) : splitOnCharAux sep cs acc = [acc.reverse ++ cs] := by
  induction cs generalizing acc with
  | nil => simp [splitOnCharAux]
  | cons c cs' ih =>
    rw [List.mem_cons, not_or] at h
    rw [splitOnCharAux, if_neg (by exact fun hc => h.1 hc.symm)]
    rw [ih _ h.2]
    simp

theorem splitOnCharAux_length_pos (sep : Char) (cs acc : List Char) :
    1 ≤ (splitOnCharAux sep cs acc).length := by
  induction cs generalizing acc with
  | nil => simp [splitOnCharAux]
  | cons c cs' ih =>
    rw [splitOnCharAux]
    by_cases hc : c = sep
    · simp [hc]
    · simpa [hc] using ih (c :: acc)

theorem splitOnCharAux_mem (sep : Char) (cs acc : List Char) (h : sep ∈ cs) :
    2 ≤ (splitOnCharAux sep cs acc).length := by
  induction cs generalizing acc with
  | nil => simp at h
  | cons c cs' ih =>
    rw [splitOnCharAux]
    by_cases hc : c = sep
    · rw [if_pos hc, List.length_cons]
      have := splitOnCharAux_length_pos sep cs' []
      omega
    · rw [List.mem_cons] at h
      rcases h with h | h
      · exact absurd h.symm hc
      · simpa [hc] using ih (c :: acc) h

/-! ## C6: session sweep -/

/-- C6: for every instant `now`, `cleanup_sessions` removes from the
store exactly the sessions whose last-access plus `SESSION_TIMEOUT` is
`≤ now`: such a session is absent after the sweep, and a younger one
survives with its data unchanged. -/
theorem c6_sweep_removes_exactly_expired (store : Store) (now : Nat)
    (sid : String) (d : SessData) (t : Nat)
    (hnd : (listKeys store).Nodup) (hfind : listFind? store sid = some d)
    (hla : d.lastAccess = some t) :
    listFind? (cleanup_sessions store now) sid
      = if t + SESSION_TIMEOUT ≤ now then none else some d := by
  unfold cleanup_sessions
  by_cases hc : t + SESSION_TIMEOUT ≤ now
  · rw [if_pos hc]
    apply listFind?_filter_neg store _ sid d hnd hfind
    simp only [hla, Option.getD_some, gt_iff_lt, decide_eq_false_iff_not,
      not_lt]
    exact hc
  · rw [if_neg hc]
    apply listFind?_filter_pos store _ sid d hfind
    simp only [hla, Option.getD_some, gt_iff_lt, decide_eq_true_eq]
    omega

/-- Witness for C6: an 8-hour-stale session is swept at `now = 50000`,
a fresh one survives a sweep at `now = 50`. -/
theorem c6_sweep_witness :
    listFind? (cleanup_sessions [("a", ⟨some 0, []⟩)] 50000) "a"
        = (if 0 + SESSION_TIMEOUT ≤ 50000 then none
           else some (⟨some 0, []⟩ : SessData)) ∧
      listFind? (cleanup_sessions [("b", ⟨some 40, []⟩)] 50) "b"
        = (if 40 + SESSION_TIMEOUT ≤ 50 then none
           else some (⟨some 40, []⟩ : SessData)) :=
  ⟨c6_sweep_removes_exactly_expired _ 50000 "a" _ 0 (by decide) (by decide) rfl,
   c6_sweep_removes_exactly_expired _ 50 "b" _ 40 (by decide) (by decide) rfl⟩

/-! ## C7: cookie parsing -/

theorem strContains_false_iff (s : String) (c : Char) :
    strContains s c = false ↔ c ∉ s.toList := by
  have h : strContains s c = true ↔ c ∈ s.toList := by
    simp [strContains]
  rw [← Bool.not_eq_true]
  exact not_congr h

theorem getSessionCookieItem_none_iff (item : String) :
    getSessionCookieItem item = none ↔ strContains item '=' = false := by
  by_cases hm : '=' ∈ item.toList
  · have h2 := splitOnCharAux_mem '=' item.toList [] hm
    have hcontains : ¬strContains item '=' = false := by
      rw [strContains_false_iff]
      exact fun hc => hc hm
    rcases hsp : splitOnCharAux '=' item.toList [] with _ | ⟨x, rest⟩
    · rw [hsp] at h2
      simp at h2
    · rcases rest with _ | ⟨y, rest'⟩
      · rw [hsp] at h2
        simp at h2
      · have hsome : getSessionCookieItem item
            = some (pyStrip (String.mk x), pyStrip (String.mk y)) := by
          unfold getSessionCookieItem pySplit
          rw [hsp]
          rfl
        simp [hsome, hcontains]
  · have hsp := splitOnCharAux_not_mem '=' item.toList [] hm
    have hnone : getSessionCookieItem item = none := by
      unfold getSessionCookieItem pySplit
      rw [hsp]
      rfl
    have hcontains : strContains item '=' = false :=
      (strContains_false_iff item '=').mpr hm
    simp [hnone, hcontains]

theorem cookieFoldlM_none_iff (items : List String) (d : Assoc) :
    (items.foldlM
        (fun d item =>
          (getSessionCookieItem item).map (fun p => listSet d p.1 p.2)) d
      = none)
      ↔ ∃ item ∈ items, strContains item '=' = false := by
  induction items generalizing d with
  | nil => simp
  | cons item rest ih =>
    rw [List.foldlM_cons]
    cases hg : getSessionCookieItem item with
    | none =>
      simp only [hg, Option.map_none', Option.none_bind]
      constructor
      · intro _
        exact ⟨item, List.mem_cons_self item rest,
          (getSessionCookieItem_none_iff item).mp hg⟩
      · intro _
        rfl
    | some p =>
      simp only [hg, Option.map_some']
      have hred :
          (some (listSet d p.1 p.2) >>= fun init =>
              List.foldlM
                (fun d item =>
                  (getSessionCookieItem item).map (fun p => listSet d p.1 p.2))
                init rest)
            = List.foldlM
                (fun d item =>
                  (getSessionCookieItem item).map (fun p => listSet d p.1 p.2))
                (listSet d p.1 p.2) rest := rfl
      rw [hred, ih]
      constructor
      · rintro ⟨it, hin, hit⟩
        exact ⟨it, List.mem_cons_of_mem item hin, hit⟩
      · rintro ⟨it, hin, hit⟩
        rcases List.mem_cons.mp hin with heq | hin'
        · subst heq
          rw [(getSessionCookieItem_none_iff it).mpr hit] at hg
          exact absurd hg (by simp)
        · exact ⟨it, hin', hit⟩

/-- C7 (amended): the WSGI cookie parser never fails — an entry without
`=` is dropped without affecting the others, and the last duplicate
wins — while the cookie parsing inside `get_session` fails exactly when
some `;`-entry lacks an `=`. -/
theorem c7_cookie_parsing_amended :
    (∀ header, parseCookiesGetSession header = none ↔
        ∃ item ∈ pySplit header ';', strContains item '=' = false) ∧
      (∀ (pre post : List String) (bad : String),
          strContains bad '=' = false →
            parseCookieEntries (pre ++ bad :: post)
              = parseCookieEntries (pre ++ post)) ∧
      parseCookiesMock "a; b=2" = [("b", "2")] ∧
      parseCookiesMock "a=1; a=2" = [("a", "2")] := by
  refine ⟨?_, ?_, by decide, by decide⟩
  · intro header
    exact cookieFoldlM_none_iff (pySplit header ';') []
  · intro pre post bad hbad
    have hstep : ∀ d : Assoc, cookieStep d bad = d := by
      intro d
      simp [cookieStep, hbad]
    unfold parseCookieEntries
    rw [List.foldl_append, List.foldl_append, List.foldl_cons, hstep]

/-- Witness for C7 (amended) at concrete headers and entry lists. -/
theorem c7_cookie_parsing_witness :
    parseCookieEntries ["x=1", "a", "b=2"] = parseCookieEntries ["x=1", "b=2"]
      ∧ parseCookiesGetSession "abc" = none :=
  ⟨c7_cookie_parsing_amended.2.1 ["x=1"] ["b=2"] "a" (by decide),
   (c7_cookie_parsing_amended.1 "abc").mpr ⟨"abc", by decide, by decide⟩⟩

/-- C7 counterexample: on the claim's own example header `"a; b=2"` the
cookie parsing in `get_session` raises (`none`) instead of returning a
partial mapping, so cookie parsing can fail. -/
theorem c7_get_session_parse_fails_counterexample :
    parseCookiesGetSession "a; b=2" = none := by decide

/-! ## C4: multipart bodies -/

/-- The claim's example multi-part body: one file part with field name
`file`, filename `x.txt` and payload `PAYLOAD`. -/
def mpBody : String :=
  "--BOUNDARY\r\nContent-Disposition: form-data; name=\"file\"; filename=\"x.txt\"\r\nContent-Type: text/plain\r\n\r\nPAYLOAD\r\n--BOUNDARY--\r\n"

/-- C4 counterexample: the body decoder applied to the example
multi-part body yields non-empty body fields (and the decoder has no
file-field output at all), contradicting the claimed
`fileFields["file"]`-and-empty-`bodyFields` result. -/
theorem c4_multipart_counterexample : wsgiBodyParams "POST" mpBody ≠ [] := by
  decide

/-- C4 (amended): the code has no multi-part decoder; every POST body is
query-string parsed whatever its content type, so the example multi-part
body becomes one spurious form field (split at its first `=`) and no
file record exists. -/
theorem c4_multipart_parsed_as_urlencoded :
    wsgiBodyParams "POST" mpBody
      = [("--BOUNDARY\r\nContent-Disposition: form-data; name",
          ["\"file\"; filename=\"x.txt\"\r\nContent-Type: text/plain\r\n\r\nPAYLOAD\r\n--BOUNDARY--\r\n"])] := by
  decide

/-! ## C2: route fallback -/

/-- Join with commas, used by test handlers to expose their arguments. -/
def joinComma : List String → String
  | [] => ""
  | [x] => x
  | x :: xs => x ++ "," ++ joinComma xs

/-- A test `index` handler echoing its bound arguments. -/
def idxHandler : Handler :=
  ⟨[⟨"x", some "d"⟩], fun args => .ok (.plain (.str (joinComma args)))⟩

/-- An application whose only handler is `index`. -/
def handlersIdxOnly : String → Option Handler :=
  fun n => if n = "index" then some idxHandler else none

/-- An application whose only handler is `hello`. -/
def handlersHello : String → Option Handler :=
  fun n =>
    if n = "hello" then some ⟨[], fun _ => .ok (.plain (.str "hi"))⟩ else none

/-- A server state with an empty session store. -/
def stEmpty : ServerState := ⟨[], [], [], []⟩

/-- GET request for `/a/b/c`, no cookie, no query, no body. -/
def envABC : WsgiEnv := ⟨"/a/b/c", "GET", "", none, "", true, ""⟩

/-- GET request for `/nope`, no cookie, no query, no body. -/
def envNope : WsgiEnv := ⟨"/nope", "GET", "", none, "", true, ""⟩

/-- C2 counterexample: with no handler named `a` (only `index` exists),
the request for `a/b/c` is answered `404 Not Found` — `index` is never
invoked with `["a", "b", "c"]` (its echo body does not appear). -/
theorem c2_no_fallback_counterexample :
    (wsgi_app stEmpty envABC handlersIdxOnly "ns" 5).1
      = ⟨"404 Not Found", [("Content-Type", "text/html")],
         ["404 Not Found"]⟩ := by
  decide

/-- C2 (amended): there is no fallback to `index` for unknown handler
names — such requests get a `404 Not Found` response; only the empty
path maps to `index` (with empty positional parameters), and `a/b/c`
resolves to handler `a` with positional parameters `["b", "c"]`. -/
theorem c2_route_resolution_amended :
    (∀ (st : ServerState) (env : WsgiEnv)
        (handlers : String → Option Handler) (newSid : String) (now : Nat),
        (env.method == "POST" && !env.bodyOk) = false →
          handlers (wsgiRoute env.pathInfo).1 = none →
            (wsgi_app st env handlers newSid now).1
              = ⟨"404 Not Found", [("Content-Type", "text/html")],
                 ["404 Not Found"]⟩)
      ∧ wsgiRoute "" = ("index", [])
      ∧ wsgiRoute "/a/b/c" = ("a", ["b", "c"]) := by
  refine ⟨?_, by decide, by decide⟩
  intro st env handlers newSid now h1 h2
  simp [wsgi_app, h1, h2]

/-- Witness for C2 (amended) at a concrete unknown-handler request. -/
theorem c2_route_resolution_witness :
    (wsgi_app stEmpty envNope handlersHello "ns" 1).1
      = ⟨"404 Not Found", [("Content-Type", "text/html")],
         ["404 Not Found"]⟩ :=
  c2_route_resolution_amended.1 stEmpty envNope handlersHello "ns" 1
    (by decide) rfl

/-! ## C3: argument-binding precedence -/

/-- Modelled from the claim (spec section 4.5): an uploaded-file record
(filename, content type, payload). -/
structure FileRecord where
  filename : String
  contentType : String
  payload : String
deriving DecidableEq, Repr

/-- Modelled from the claim: a bound value is a string or a file record. -/
inductive BoundVal
  | s (v : String)
  | file (f : FileRecord)
deriving DecidableEq, Repr

/-- Modelled from the claim (spec section 4.5): the six-step binding
precedence the claim asserts — positional path param, else first query
value, else first body value, else uploaded-file record, else session
attribute, else declared default, else fail. -/
def bindArgsSpec (params : List Param) (pathParams : List String)
    (q b : MultiDict) (files : List (String × FileRecord)) (sess : Assoc) :
    Except String (List BoundVal) :=
  match params with
  | [] => .ok []
  | p :: ps =>
    match pathParams with
    | v :: rest =>
      (bindArgsSpec ps rest q b files sess).map (fun args => .s v :: args)
    | [] =>
      match mdFind? q p.name with
      | some vs =>
        (bindArgsSpec ps [] q b files sess).map
          (fun args => .s (vs.headD "") :: args)
      | none =>
        match mdFind? b p.name with
        | some vs =>
          (bindArgsSpec ps [] q b files sess).map
            (fun args => .s (vs.headD "") :: args)
        | none =>
          match listFind? files p.name with
          | some f =>
            (bindArgsSpec ps [] q b files sess).map
              (fun args => .file f :: args)
          | none =>
            match listFind? sess p.name with
            | some v =>
              (bindArgsSpec ps [] q b files sess).map
                (fun args => .s v :: args)
            | none =>
              match p.default with
              | some d =>
                (bindArgsSpec ps [] q b files sess).map
                  (fun args => .s d :: args)
              | none => .error p.name

/-- Modelled from the amended claim: the four-step precedence the code
implements — positional path param, else first query value, else first
body value, else declared default, else fail. -/
def bindArgsAmended (params : List Param) (pathParams : List String)
    (q b : MultiDict) : Except String (List String) :=
  match params with
  | [] => .ok []
  | p :: ps =>
    match pathParams with
    | v :: rest =>
      (bindArgsAmended ps rest q b).map (fun args => v :: args)
    | [] =>
      match mdFind? q p.name with
      | some vs =>
        (bindArgsAmended ps [] q b).map (fun args => vs.headD "" :: args)
      | none =>
        match mdFind? b p.name with
        | some vs =>
          (bindArgsAmended ps [] q b).map (fun args => vs.headD "" :: args)
        | none =>
          match p.default with
          | some d => (bindArgsAmended ps [] q b).map (fun args => d :: args)
          | none => .error p.name

/-- C3 counterexample: a parameter `x` with no default and no
positional/query/body source fails in the code (both binders), while
the claimed six-step precedence would bind it from the session
attributes. -/
theorem c3_precedence_counterexample :
    (bindArgs [⟨"x", none⟩] [] [] []).1 = .error "x"
      ∧ bindArgsSpec [⟨"x", none⟩] [] [] [] [] [("x", "v")] = .ok [.s "v"]
      ∧ (getFuncArgs [⟨"x", none⟩] [] [] [] "GET").1 = .error "x" :=
  ⟨rfl, rfl, rfl⟩

/-- The `greet` handler of the claim's example, echoing its arguments. -/
def greetHandler : Handler :=
  ⟨[⟨"id", none⟩, ⟨"name", some "anon"⟩],
   fun args => .ok (.plain (.str (joinComma args)))⟩

/-- An application whose only handler is `greet`. -/
def handlersGreet : String → Option Handler :=
  fun n => if n = "greet" then some greetHandler else none

/-- GET request for `/greet/42`, no cookie, no query, no body. -/
def envGreet : WsgiEnv := ⟨"/greet/42", "GET", "", none, "", true, ""⟩

/-- C3 (amended): the WSGI binder resolves each parameter by exactly
the four-step precedence positional → query-first-value →
body-first-value → declared default → fail (no uploaded-file or
session step exists); the claim's example `(id, name="anon")` via
`/greet/42` binds to `("42", "anon")` in both binders, and end to end
the handler sees those arguments. -/
theorem c3_binding_precedence_amended :
    (∀ (params : List Param) (pathParams : List String) (q b : MultiDict),
        (bindArgs params pathParams q b).1
          = bindArgsAmended params pathParams q b)
      ∧ bindArgs [⟨"id", none⟩, ⟨"name", some "anon"⟩] ["42"] [] []
          = (.ok ["42", "anon"], [])
      ∧ (getFuncArgs [⟨"id", none⟩, ⟨"name", some "anon"⟩] ["42"] [] []
          "GET").1 = .ok ["42", "anon"]
      ∧ (wsgi_app stEmpty envGreet handlersGreet "ns" 3).1.body
          = ["42,anon"] := by
  refine ⟨?_, rfl, rfl, by decide⟩
  intro params
  induction params with
  | nil =>
    intro pathParams q b
    rfl
  | cons p ps ih =>
    intro pathParams q b
    cases pathParams with
    | cons v rest => simp [bindArgs, bindArgsAmended, ih]
    | nil =>
      cases hq : mdFind? q p.name with
      | some vs => simp [bindArgs, bindArgsAmended, hq, ih]
      | none =>
        cases hb : mdFind? b p.name with
        | some vs => simp [bindArgs, bindArgsAmended, hq, hb, ih]
        | none =>
          cases hd : p.default with
          | some dv => simp [bindArgs, bindArgsAmended, hq, hb, hd, ih]
          | none => simp [bindArgs, bindArgsAmended, hq, hb, hd]

/-! ## C8: binding determinism -/

/-- C8: the binding phase re-derives `self.path_params`,
`self.query_params` and `self.body_params` from the request before the
destructive left-to-right `pop(0)` consumption, so repeating the bind
on the state the previous bind left behind yields the identical result
and the identical leftover positional parameters. -/
theorem c8_bind_idempotent :
    ∀ (st : ServerState) (env : WsgiEnv) (params : List Param),
      (dispatchBind (dispatchBind st env params).2 env params).1
          = (dispatchBind st env params).1
        ∧ (dispatchBind (dispatchBind st env params).2 env params).2.pathParams
          = (dispatchBind st env params).2.pathParams := by
  intro st env params
  exact ⟨rfl, rfl⟩

/-! ## C5: missing-parameter handling -/

/-- An application with exactly one handler under `name`. -/
def singleHandler (name : String) (params : List Param)
    (run : List String → HandlerResult) : String → Option Handler :=
  fun n => if n = name then some ⟨params, run⟩ else none

/-- Count of client-error (4xx) status lines in a trace. -/
def clientErrorStartCount (tr : List Event) : Nat :=
  tr.countP (fun e =>
    match e with
    | .sendError c _ => decide (400 ≤ c ∧ c < 500)
    | .sendResponse c => decide (400 ≤ c ∧ c < 500)
    | _ => false)

/-- A handler requiring one parameter `x`, never satisfiable from a
bare GET request. -/
def needsXHandler : Handler := ⟨[⟨"x", none⟩], fun _ => .ok (.plain (.str "ok"))⟩

/-- An application whose only handler is `greet`, requiring `x`. -/
def handlersNeedsX : String → Option Handler :=
  singleHandler "greet" [⟨"x", none⟩] (fun _ => .ok (.plain (.str "ok")))

/-- GET `/greet` to the built-in server, no cookie, no query, no body. -/
def reqGreetBare : BuiltinReq := ⟨"/greet", "", "GET", none, ""⟩

/-- C5 counterexample: in the built-in server a missing required
parameter aborts the request with `send_error(500, "Internal Server
Error")` — a 500-class response that does not name the parameter — and
no 4xx status line is ever written. -/
theorem c5_builtin_500_counterexample :
    handle_request [] handlersNeedsX reqGreetBare "ns" 7
        = ([.sendResponse 200,
            .sendHeader "Set-Cookie"
              "session_id=ns; Path=/; HttpOnly; SameSite=Strict",
            .endHeaders, .sendError 500 "Internal Server Error"],
           [("ns", ⟨some 7, []⟩)], .done)
      ∧ clientErrorStartCount
          (handle_request [] handlersNeedsX reqGreetBare "ns" 7).1 = 0 :=
  ⟨by decide, by decide⟩

/-- C5 (amended): a required parameter that no source resolves and that
has no default aborts the request before the handler runs — in
`wsgi_app` with a `400 Bad Request` whose body names the parameter
(and with a response independent of the handler body, so the handler
is never invoked with a partial argument list); in the built-in server
with `send_error(500, "Internal Server Error")`, which does not name
it. -/
theorem c5_missing_parameter_amended :
    (∀ (st : ServerState) (env : WsgiEnv)
        (handlers : String → Option Handler) (h : Handler) (pname : String)
        (newSid : String) (now : Nat),
        (env.method == "POST" && !env.bodyOk) = false →
          handlers (wsgiRoute env.pathInfo).1 = some h →
            (bindArgs h.params (wsgiRoute env.pathInfo).2
                (parse_qs env.queryString)
                (wsgiBodyParams env.method env.body)).1 = .error pname →
              (wsgi_app st env handlers newSid now).1
                = ⟨"400 Bad Request", [("Content-Type", "text/html")],
                   [msg400missing pname]⟩)
      ∧ (∀ (st : ServerState) (env : WsgiEnv) (name : String)
          (params : List Param) (run1 run2 : List String → HandlerResult)
          (pname : String) (newSid : String) (now : Nat),
          (env.method == "POST" && !env.bodyOk) = false →
            (wsgiRoute env.pathInfo).1 = name →
              (bindArgs params (wsgiRoute env.pathInfo).2
                  (parse_qs env.queryString)
                  (wsgiBodyParams env.method env.body)).1 = .error pname →
                wsgi_app st env (singleHandler name params run1) newSid now
                  = wsgi_app st env (singleHandler name params run2) newSid
                      now)
      ∧ (∀ (store : Store) (handlers : String → Option Handler)
          (req : BuiltinReq) (h : Handler) (pname : String)
          (newSid : String) (now : Nat)
          (sres : Store × SessData × List Event × String),
          (pySplit (stripSlashes req.path) '/').headD "" ≠ "static" →
            handlers (builtinFuncName req.path) = some h →
              get_session store req.cookieHeader newSid now = some sres →
                (getFuncArgs h.params
                    (pySplit (stripSlashes req.path) '/').tail
                    (parse_qs req.query)
                    (if req.method = "POST" then parse_qs req.body else [])
                    req.method).1 = .error pname →
                  handle_request store handlers req newSid now
                    = (sres.2.2.1
                        ++ [.sendError 500 "Internal Server Error"],
                       sres.1, .done)) := by
  refine ⟨?_, ?_, ?_⟩
  · intro st env handlers h pname newSid now h1 h2 h3
    simp [wsgi_app, h1, h2, h3]
  · intro st env name params run1 run2 pname newSid now h1 hname h3
    subst hname
    simp [wsgi_app, h1, singleHandler, h3]
  · intro store handlers req h pname newSid now sres h1 h2 h3 h4
    simp only [handle_request]
    rw [if_neg h1]
    simp only [h2, h3, h4, validate_request_true, Bool.not_true,
      Bool.false_eq_true, if_false]

/-- Witness for C5 (amended): concrete missing-parameter requests to
the WSGI app and the built-in server. -/
theorem c5_missing_parameter_witness :
    (wsgi_app stEmpty ⟨"/greet", "GET", "", none, "", true, ""⟩
        handlersNeedsX "ns" 2).1
        = ⟨"400 Bad Request", [("Content-Type", "text/html")],
           [msg400missing "x"]⟩
      ∧ handle_request [] handlersNeedsX ⟨"/greet", "", "GET", some "", ""⟩
          "ns" 9
          = ((getSessionCont [] none "ns" 9).2.2.1
              ++ [.sendError 500 "Internal Server Error"],
             (getSessionCont [] none "ns" 9).1, .done) :=
  ⟨c5_missing_parameter_amended.1 stEmpty
      ⟨"/greet", "GET", "", none, "", true, ""⟩ handlersNeedsX needsXHandler
      "x" "ns" 2 (by decide) rfl rfl,
   c5_missing_parameter_amended.2.2 [] handlersNeedsX
      ⟨"/greet", "", "GET", some "", ""⟩ needsXHandler "x" "ns" 9
      (getSessionCont [] none "ns" 9) (by decide) rfl rfl rfl⟩

/-! ## C9: the dispatch paths never remove sessions -/

theorem getSessionCont_keys_monotone (store : Store)
    (sessionId? : Option String) (newSid : String) (now : Nat) (k : String)
    (h : k ∈ listKeys store) :
    k ∈ listKeys (getSessionCont store sessionId? newSid now).1 := by
  simp only [getSessionCont]
  by_cases hnew : builtinSessionIsNew store sessionId? = true
  · rw [if_pos hnew]
    have h1 : k ∈ listKeys (listSet store newSid ⟨some now, []⟩) :=
      mem_listKeys_listSet _ _ _ _ h
    cases hf : listFind? (listSet store newSid ⟨some now, []⟩) newSid with
    | some data => exact mem_listKeys_listSet _ _ _ _ h1
    | none => exact mem_listKeys_listSet _ _ _ _ h1
  · rw [if_neg hnew]
    cases hf : listFind? store (sessionId?.getD "") with
    | some data => exact mem_listKeys_listSet _ _ _ _ h
    | none => exact mem_listKeys_listSet _ _ _ _ h

theorem get_session_keys_monotone (store : Store)
    (cookieHeader : Option String) (newSid : String) (now : Nat)
    (sres : Store × SessData × List Event × String)
    (hs : get_session store cookieHeader newSid now = some sres)
    (k : String) (h : k ∈ listKeys store) : k ∈ listKeys sres.1 := by
  unfold get_session at hs
  cases cookieHeader with
  | none =>
    dsimp only at hs
    injection hs with hs
    rw [← hs]
    exact getSessionCont_keys_monotone _ _ _ _ _ h
  | some c =>
    dsimp only at hs
    by_cases hc : c = ""
    · rw [if_pos hc] at hs
      injection hs with hs
      rw [← hs]
      exact getSessionCont_keys_monotone _ _ _ _ _ h
    · rw [if_neg hc] at hs
      cases hp : parseCookiesGetSession c with
      | none => rw [hp] at hs; exact absurd hs (by simp)
      | some cookies =>
        rw [hp] at hs
        dsimp only at hs
        injection hs with hs
        rw [← hs]
        exact getSessionCont_keys_monotone _ _ _ _ _ h

theorem handle_request_keys_monotone (store : Store)
    (handlers : String → Option Handler) (req : BuiltinReq)
    (newSid : String) (now : Nat) (k : String) (h : k ∈ listKeys store) :
    k ∈ listKeys (handle_request store handlers req newSid now).2.1 := by
  simp only [handle_request]
  by_cases hst : (pySplit (stripSlashes req.path) '/').headD "" = "static"
  · rw [if_pos hst]
    exact h
  · rw [if_neg hst]
    cases hf : handlers (builtinFuncName req.path) with
    | none => exact h
    | some hh =>
      cases hs : get_session store req.cookieHeader newSid now with
      | none => exact h
      | some sres =>
        have hmono := get_session_keys_monotone store req.cookieHeader newSid
          now sres hs k h
        by_cases hv :
            validate_request req.method (parse_qs req.query)
              (if req.method = "POST" then parse_qs req.body else []) = true
        · simp only [hv, Bool.not_true, Bool.false_eq_true, if_false]
          cases hb :
              (getFuncArgs hh.params (pySplit (stripSlashes req.path) '/').tail
                (parse_qs req.query)
                (if req.method = "POST" then parse_qs req.body else [])
                req.method).1 with
          | error e => exact hmono
          | ok args =>
            dsimp only
            cases hr : hh.run args with
            | raise => exact hmono
            | ok rv => exact hmono
        · rw [validate_request_true] at hv
          exact absurd rfl hv

/-- A method's return value: one of the shapes `RetVal` covers, or
Python `None` (what `cleanup_sessions` returns). -/
inductive MRetVal
  | ret (rv : RetVal)
  | noneRet
deriving DecidableEq, Repr

/-- Invoking a bound method either returns a value or raises. -/
inductive MHandlerResult
  | ok (r : MRetVal)
  | raise
deriving DecidableEq, Repr

/-- A handler as the bound method it is in the source: `getattr`
dispatch (`MicroPie.py:142`, `:442`) selects any attribute of the
`Server` instance — including `cleanup_sessions` itself — and such a
method may read and mutate `self.sessions` while computing its return
value, so `run` threads the store. -/
structure MHandler where
  params : List Param
  run : Store → List String → MHandlerResult × Store

/-- `_send_response` on a method's return value: `None`, like every
other non-string non-2-tuple value, falls to the final branch
`send_error(500, "Invalid response format")` (`MicroPie.py:228-230`). -/
def sendResponseEventsM : MRetVal → List Event
  | .ret rv => sendResponseEvents rv
  | .noneRet => [.sendError 500 "Invalid response format"]

/-- `_handle_request` (`MicroPie.py:131-177`) with store-threading
handler invocation: identical to `handle_request` except that the
selected bound method receives the store session resolution left and
the resulting store is the one the method leaves behind (mutations
before a raise persist). -/
def handle_request_m (store : Store)
    (handlers : String → Option MHandler) (req : BuiltinReq)
    (newSid : String) (now : Nat) : List Event × Store × BOutcome :=
  let pathParts := pySplit (stripSlashes req.path) '/'
  if pathParts.headD "" = "static" then ([.staticServe], store, .done)
  else
    match handlers (builtinFuncName req.path) with
    | none => ([.sendError 404 "Not Found"], store, .done)
    | some h =>
      match get_session store req.cookieHeader newSid now with
      | none => ([], store, .crashed)
      | some sres =>
        let store1 := sres.1
        let sessEvents := sres.2.2.1
        let queryParams := parse_qs req.query
        let pathParams := pathParts.tail
        let bodyParams := if req.method = "POST" then parse_qs req.body else []
        if !(validate_request req.method queryParams bodyParams) then
          (sessEvents ++ [.sendError 400 "Invalid Request"], store1, .done)
        else
          match
            (getFuncArgs h.params pathParams queryParams bodyParams
              req.method).1 with
          | .error _ =>
            (sessEvents ++ [.sendError 500 "Internal Server Error"], store1,
             .done)
          | .ok args =>
            let rr := h.run store1 args
            match rr.1 with
            | .raise =>
              (sessEvents ++ [.sendError 500 "Internal Server Error"], rr.2,
               .done)
            | .ok rv => (sessEvents ++ sendResponseEventsM rv, rr.2, .done)

/-- Lift a `HandlerResult` of a store-independent handler. -/
def liftHandlerResult : HandlerResult → MHandlerResult
  | .ok rv => .ok (.ret rv)
  | .raise => .raise

/-- Lift a store-independent handler to a bound method that leaves the
store unchanged. -/
def liftHandler (h : Handler) : MHandler :=
  ⟨h.params, fun store args => (liftHandlerResult (h.run args), store)⟩

/-- `handle_request_m` is a conservative extension: on handlers that do
not touch the store it coincides with `handle_request`. -/
theorem handle_request_m_lift (store : Store)
    (handlers : String → Option Handler) (req : BuiltinReq)
    (newSid : String) (now : Nat) :
    handle_request_m store (fun n => (handlers n).map liftHandler) req
        newSid now
      = handle_request store handlers req newSid now := by
  simp only [handle_request_m, handle_request]
  by_cases hst : (pySplit (stripSlashes req.path) '/').headD "" = "static"
  · rw [if_pos hst, if_pos hst]
  · rw [if_neg hst, if_neg hst]
    cases hf : handlers (builtinFuncName req.path) with
    | none => simp only [hf, Option.map_none']
    | some hh =>
      simp only [hf, Option.map_some']
      cases hs : get_session store req.cookieHeader newSid now with
      | none => rfl
      | some sres =>
        dsimp only [liftHandler]
        simp only [validate_request_true, Bool.not_true,
          Bool.false_eq_true, if_false]
        cases hb :
            (getFuncArgs hh.params
              (pySplit (stripSlashes req.path) '/').tail
              (parse_qs req.query)
              (if req.method = "POST" then parse_qs req.body else [])
              req.method).1 with
        | error e => rfl
        | ok args =>
          dsimp only
          cases hr : hh.run args with
          | raise => rfl
          | ok rv => rfl

/-- Count of `send_response(200)` status lines in a trace. -/
def ok200Count (tr : List Event) : Nat :=
  tr.countP (fun e =>
    match e with
    | .sendResponse 200 => true
    | _ => false)

/-- The three transport events `get_session` writes for a new session. -/
def newSessionEvents (newSid : String) : List Event :=
  [Event.sendResponse 200,
   Event.sendHeader "Set-Cookie" (builtinSetCookieValue newSid),
   Event.endHeaders]

/-- C10 counterexample: a cookie-less request for an unknown handler is
answered with only the 404 error — no 200 status line is ever started
and the session is never created — so session resolution does not
precede route dispatch. -/
theorem c10_route_before_session_counterexample :
    handle_request [] handlersHello ⟨"/nosuch", "", "GET", none, ""⟩ "ns" 7
        = ([.sendError 404 "Not Found"], [], .done)
      ∧ ok200Count
          (handle_request [] handlersHello ⟨"/nosuch", "", "GET", none, ""⟩
            "ns" 7).1 = 0 :=
  ⟨by decide, by decide⟩

/-- C10 (amended): in the built-in server, session resolution writes
its 200 status line, `Set-Cookie` header and end-of-headers marker
exactly for new sessions, and it does so after route resolution but
before validation, argument binding and handler invocation — every
trace of a request that reaches a known handler and creates a session
starts with those three events, so a later 400/500 error is emitted
after the 200 has started; a request for an unknown handler instead
gets only a 404, with the session never resolved. -/
theorem c10_session_events_ordering_amended :
    (∀ (store : Store) (sessionId? : Option String) (newSid : String)
        (now : Nat),
        (getSessionCont store sessionId? newSid now).2.2.1
          = if builtinSessionIsNew store sessionId? then
              newSessionEvents newSid
            else [])
      ∧ (∀ (store : Store) (handlers : String → Option Handler)
          (req : BuiltinReq) (h : Handler) (newSid : String) (now : Nat)
          (sres : Store × SessData × List Event × String),
          (pySplit (stripSlashes req.path) '/').headD "" ≠ "static" →
            handlers (builtinFuncName req.path) = some h →
              get_session store req.cookieHeader newSid now = some sres →
                sres.2.2.1 = newSessionEvents newSid →
                  ∃ rest, (handle_request store handlers req newSid now).1
                    = newSessionEvents newSid ++ rest)
      ∧ (∀ (store : Store) (handlers : String → Option Handler)
          (req : BuiltinReq) (newSid : String) (now : Nat),
          (pySplit (stripSlashes req.path) '/').headD "" ≠ "static" →
            handlers (builtinFuncName req.path) = none →
              handle_request store handlers req newSid now
                = ([.sendError 404 "Not Found"], store, .done)) := by
  refine ⟨?_, ?_, ?_⟩
  · intro store sessionId? newSid now
    simp only [getSessionCont]
    by_cases hnew : builtinSessionIsNew store sessionId? = true
    · rw [if_pos hnew, if_pos hnew]
      cases hf : listFind? (listSet store newSid ⟨some now, []⟩) newSid <;>
        rfl
    · rw [if_neg hnew, if_neg hnew]
      cases hf : listFind? store (sessionId?.getD "") <;> rfl
  · intro store handlers req h newSid now sres h1 h2 h3 hev
    simp only [handle_request]
    rw [if_neg h1]
    simp only [h2, h3, validate_request_true, Bool.not_true,
      Bool.false_eq_true, if_false]
    cases hb :
        (getFuncArgs h.params (pySplit (stripSlashes req.path) '/').tail
          (parse_qs req.query)
          (if req.method = "POST" then parse_qs req.body else [])
          req.method).1 with
    | error e =>
      exact ⟨[.sendError 500 "Internal Server Error"], by rw [hev]⟩
    | ok args =>
      dsimp only
      cases hr : h.run args with
      | raise =>
        exact ⟨[.sendError 500 "Internal Server Error"], by rw [hev]⟩
      | ok rv => exact ⟨sendResponseEvents rv, by rw [hev]⟩
  · intro store handlers req newSid now h1 h2
    simp only [handle_request]
    rw [if_neg h1]
    simp only [h2]

/-- Witness for C10 (amended): a concrete cookie-less request to a
known handler starts with the session 200/`Set-Cookie`/end-of-headers
block; a concrete unknown-handler request yields only the 404. -/
theorem c10_session_events_ordering_witness :
    (∃ rest,
        (handle_request [] handlersHello ⟨"/hello", "", "GET", none, ""⟩
          "ns" 4).1 = newSessionEvents "ns" ++ rest)
      ∧ handle_request [] handlersHello ⟨"/gone", "", "GET", none, ""⟩
          "ns" 4 = ([.sendError 404 "Not Found"], [], .done) :=
  ⟨c10_session_events_ordering_amended.2.1 [] handlersHello
      ⟨"/hello", "", "GET", none, ""⟩ ⟨[], fun _ => .ok (.plain (.str "hi"))⟩
      "ns" 4 (getSessionCont [] none "ns" 4) (by decide) rfl rfl (by decide),
   c10_session_events_ordering_amended.2.2 [] handlersHello
      ⟨"/gone", "", "GET", none, ""⟩ "ns" 4 (by decide) rfl⟩

/-! ## C1: response header invariant -/

/-- Number of headers with the given (case-insensitively lowered)
name. -/
def countHeadersNamed (hs : List (String × String)) (name : String) : Nat :=
  hs.countP (fun h => strLower h.1 == name)

theorem countHeadersNamed_append (a b : List (String × String))
    (name : String) :
    countHeadersNamed (a ++ b) name
      = countHeadersNamed a name + countHeadersNamed b name :=
  List.countP_append _ _ _

theorem ensureContentType_of_zero (hs : List (String × String))
    (h : countHeadersNamed hs "content-type" = 0) :
    ensureContentType hs
      = hs ++ [("Content-Type", "text/html; charset=utf-8")] := by
  unfold ensureContentType
  rw [if_neg]
  intro hany
  obtain ⟨x, hx, hpx⟩ := List.any_eq_true.mp hany
  exact (List.countP_eq_zero.mp h) x hx hpx

theorem countHeadersNamed_setCookie_ct (v : String) :
    countHeadersNamed [("Set-Cookie", v)] "content-type" = 0 := rfl

theorem countHeadersNamed_setCookie_sc (v : String) :
    countHeadersNamed [("Set-Cookie", v)] "set-cookie" = 1 := rfl

theorem wsgiResolveSession_headers (store : Store) (cookies : Assoc)
    (newSid : String) (now : Nat) :
    (wsgiResolveSession store cookies newSid now).2.1
      = if wsgiSessionIsNew store cookies then [wsgiSetCookieHeader newSid]
        else [] := by
  unfold wsgiResolveSession
  by_cases hnew : wsgiSessionIsNew store cookies = true
  · rw [if_pos hnew, if_pos hnew]
  · rw [if_neg hnew, if_neg hnew]
    cases hc : listFind? cookies "session_id" with
    | none => rfl
    | some sid =>
      dsimp only
      cases hs : listFind? store sid <;> rfl

/-- The session store holding only session `s1`. -/
def stS1 : ServerState := ⟨[("s1", ⟨some 0, []⟩)], [], [], []⟩

/-- GET `/hello` carrying the valid existing cookie `session_id=s1`. -/
def envHelloCookie : WsgiEnv :=
  ⟨"/hello", "GET", "", some "session_id=s1", "", true, ""⟩

/-- C1 counterexample: a request with a valid existing session cookie
gets a success response whose header list contains no session-cookie
header at all (only the default content type), contradicting "exactly
one session-cookie header ... even a request with a valid existing
session cookie". -/
theorem c1_existing_session_no_cookie_counterexample :
    (wsgi_app stS1 envHelloCookie handlersHello "ns" 5).1.headers
        = [("Content-Type", "text/html; charset=utf-8")]
      ∧ countHeadersNamed
          (wsgi_app stS1 envHelloCookie handlersHello "ns" 5).1.headers
          "set-cookie" = 0 :=
  ⟨by decide, by decide⟩

/-- C1 (amended): every error exit of `wsgi_app` (body-read failure,
unknown handler, missing parameter, raising handler, invalid tuple)
answers with exactly one content-type header and no session-cookie
header (the queued `Set-Cookie` is dropped); a success response whose
handler supplies no content-type or set-cookie header of its own
carries exactly one content-type header, and carries exactly one
session-cookie header iff the request did not present a valid existing
session id (i.e. only when a new session was created). -/
theorem c1_header_invariant_amended :
    (∀ (st : ServerState) (env : WsgiEnv)
        (handlers : String → Option Handler) (newSid : String) (now : Nat),
        (env.method == "POST" && !env.bodyOk) = true →
          countHeadersNamed (wsgi_app st env handlers newSid now).1.headers
              "content-type" = 1
            ∧ countHeadersNamed
                (wsgi_app st env handlers newSid now).1.headers
                "set-cookie" = 0)
      ∧ (∀ (st : ServerState) (env : WsgiEnv)
          (handlers : String → Option Handler) (newSid : String)
          (now : Nat),
          (env.method == "POST" && !env.bodyOk) = false →
            handlers (wsgiRoute env.pathInfo).1 = none →
              countHeadersNamed
                  (wsgi_app st env handlers newSid now).1.headers
                  "content-type" = 1
                ∧ countHeadersNamed
                    (wsgi_app st env handlers newSid now).1.headers
                    "set-cookie" = 0)
      ∧ (∀ (st : ServerState) (env : WsgiEnv)
          (handlers : String → Option Handler) (h : Handler)
          (pname : String) (newSid : String) (now : Nat),
          (env.method == "POST" && !env.bodyOk) = false →
            handlers (wsgiRoute env.pathInfo).1 = some h →
              (bindArgs h.params (wsgiRoute env.pathInfo).2
                  (parse_qs env.queryString)
                  (wsgiBodyParams env.method env.body)).1 = .error pname →
                countHeadersNamed
                    (wsgi_app st env handlers newSid now).1.headers
                    "content-type" = 1
                  ∧ countHeadersNamed
                      (wsgi_app st env handlers newSid now).1.headers
                      "set-cookie" = 0)
      ∧ (∀ (st : ServerState) (env : WsgiEnv)
          (handlers : String → Option Handler) (h : Handler)
          (args : List String) (newSid : String) (now : Nat),
          (env.method == "POST" && !env.bodyOk) = false →
            handlers (wsgiRoute env.pathInfo).1 = some h →
              (bindArgs h.params (wsgiRoute env.pathInfo).2
                  (parse_qs env.queryString)
                  (wsgiBodyParams env.method env.body)).1 = .ok args →
                (h.run args = .raise ∨ h.run args = .ok .badTuple) →
                  countHeadersNamed
                      (wsgi_app st env handlers newSid now).1.headers
                      "content-type" = 1
                    ∧ countHeadersNamed
                        (wsgi_app st env handlers newSid now).1.headers
                        "set-cookie" = 0)
      ∧ (∀ (st : ServerState) (env : WsgiEnv)
          (handlers : String → Option Handler) (h : Handler)
          (args : List String) (rv : RetVal) (newSid : String) (now : Nat),
          (env.method == "POST" && !env.bodyOk) = false →
            handlers (wsgiRoute env.pathInfo).1 = some h →
              (bindArgs h.params (wsgiRoute env.pathInfo).2
                  (parse_qs env.queryString)
                  (wsgiBodyParams env.method env.body)).1 = .ok args →
                h.run args = .ok rv → rv ≠ .badTuple →
                  countHeadersNamed (unpackRet rv).2.2 "content-type" = 0 →
                    countHeadersNamed (unpackRet rv).2.2 "set-cookie" = 0 →
                      countHeadersNamed
                          (wsgi_app st env handlers newSid now).1.headers
                          "content-type" = 1
                        ∧ countHeadersNamed
                            (wsgi_app st env handlers newSid now).1.headers
                            "set-cookie"
                          = (if wsgiSessionIsNew st.sessions
                                (mockCookies env) then 1 else 0)) := by
  refine ⟨?_, ?_, ?_, ?_, ?_⟩
  · intro st env handlers newSid now h1
    have hh : (wsgi_app st env handlers newSid now).1.headers
        = [("Content-Type", "text/html")] := by
      simp [wsgi_app, h1]
    rw [hh]
    exact ⟨by decide, by decide⟩
  · intro st env handlers newSid now h1 h2
    have hh : (wsgi_app st env handlers newSid now).1.headers
        = [("Content-Type", "text/html")] := by
      simp [wsgi_app, h1, h2]
    rw [hh]
    exact ⟨by decide, by decide⟩
  · intro st env handlers h pname newSid now h1 h2 h3
    have hh : (wsgi_app st env handlers newSid now).1.headers
        = [("Content-Type", "text/html")] := by
      simp [wsgi_app, h1, h2, h3]
    rw [hh]
    exact ⟨by decide, by decide⟩
  · intro st env handlers h args newSid now h1 h2 h3 h4
    have hh : (wsgi_app st env handlers newSid now).1.headers
        = [("Content-Type", "text/html")] := by
      rcases h4 with h4 | h4 <;> simp [wsgi_app, h1, h2, h3, h4]
    rw [hh]
    exact ⟨by decide, by decide⟩
  · intro st env handlers h args rv newSid now h1 h2 h3 h4 hbad hct hsc
    have hh : (wsgi_app st env handlers newSid now).1.headers
        = ensureContentType
            ((wsgiResolveSession st.sessions (mockCookies env) newSid
                now).2.1 ++ (unpackRet rv).2.2) := by
      cases rv with
      | badTuple => exact absurd rfl hbad
      | plain b => simp [wsgi_app, h1, h2, h3, h4]
      | pair c b => simp [wsgi_app, h1, h2, h3, h4]
      | triple c b hs2 => simp [wsgi_app, h1, h2, h3, h4]
    rw [hh, wsgiResolveSession_headers]
    by_cases hnew : wsgiSessionIsNew st.sessions (mockCookies env) = true
    · rw [if_pos hnew, if_pos hnew]
      simp only [wsgiSetCookieHeader]
      rw [ensureContentType_of_zero]
      · constructor
        · rw [countHeadersNamed_append, countHeadersNamed_append,
            countHeadersNamed_setCookie_ct, hct]
          decide
        · rw [countHeadersNamed_append, countHeadersNamed_append,
            countHeadersNamed_setCookie_sc, hsc]
          decide
      · rw [countHeadersNamed_append, countHeadersNamed_setCookie_ct, hct]
    · rw [if_neg hnew, if_neg hnew]
      rw [ensureContentType_of_zero]
      · constructor
        · rw [countHeadersNamed_append, countHeadersNamed_append, hct]
          decide
        · rw [countHeadersNamed_append, countHeadersNamed_append, hsc]
          decide
      · rw [countHeadersNamed_append, hct]
        decide

/-- Witness for C1 (amended): a concrete unknown-handler request and a
concrete valid-cookie success request. -/
theorem c1_header_invariant_witness :
    (countHeadersNamed
          (wsgi_app stEmpty envNope handlersHello "ns" 1).1.headers
          "content-type" = 1
        ∧ countHeadersNamed
            (wsgi_app stEmpty envNope handlersHello "ns" 1).1.headers
            "set-cookie" = 0)
      ∧ (countHeadersNamed
            (wsgi_app stS1 envHelloCookie handlersHello "ns" 5).1.headers
            "content-type" = 1
          ∧ countHeadersNamed
              (wsgi_app stS1 envHelloCookie handlersHello "ns" 5).1.headers
              "set-cookie"
            = (if wsgiSessionIsNew stS1.sessions
                  (mockCookies envHelloCookie) then 1 else 0)) :=
  ⟨c1_header_invariant_amended.2.1 stEmpty envNope handlersHello "ns" 1
      (by decide) rfl,
   c1_header_invariant_amended.2.2.2.2 stS1 envHelloCookie handlersHello
      ⟨[], fun _ => .ok (.plain (.str "hi"))⟩ [] (.plain (.str "hi")) "ns" 5
      (by decide) rfl rfl rfl (by decide) (by decide) (by decide)⟩

end MicroPie
